import Mathlib

/-
Shallow embedding of the access-control, audit and notification core of the
guest-connect visitor-management application.

Sources embedded (paths relative to the repository root):
- supabase SQL migrations: the app_role enum, the user_roles / visitors /
  pre_registrations / audit_logs tables, their row-level-security policies,
  the has_role and is_staff helper functions, the log_role_changes audit
  trigger and the handle_new_user onboarding trigger.
- src/hooks/useUserManagement.ts: the updateUserRole client operation
  (delete-then-insert role update) and the role lookup used by the admin UI.
- the authenticated send-visitor-notification edge function (webhook fan-out)
  and the authenticated send-visitor-email edge function, modelled from the
  authenticated revisions present in the repository.

UUIDs are abstracted as natural numbers, timestamps are dropped, and JSONB
audit snapshots are flattened into the role / user fields they carry.
-/

namespace GuestConnect

/-- Principal identifier; uuid values are abstracted as naturals. -/
abbrev UserId := Nat

/-- The app_role enum from the initial migration: ('admin', 'receptionist', 'user'). -/
inductive AppRole where
  | admin
  | receptionist
  | user
deriving DecidableEq, Repr

/-- A row of public.user_roles. The id and created_at columns are omitted;
the schema constraint UNIQUE (user_id, role) is modelled by rolesConstraintOk. -/
structure RoleRow where
  user_id : UserId
  role : AppRole
deriving DecidableEq, Repr

/-- The has_role SQL function: EXISTS a user_roles row with the given user and role. -/
def has_role (roles : List RoleRow) (u : UserId) (r : AppRole) : Bool :=
  roles.any (fun row => row.user_id == u && row.role == r)

/-- The is_staff SQL function: EXISTS a user_roles row for the user with role admin or receptionist. -/
def is_staff (roles : List RoleRow) (u : UserId) : Bool :=
  roles.any (fun row =>
    row.user_id == u && (row.role == AppRole.admin || row.role == AppRole.receptionist))

/-- The UNIQUE (user_id, role) table constraint of public.user_roles:
no two rows agree on both the user and the role. -/
def rolesConstraintOk : List RoleRow → Bool
  | [] => true
  | r :: rest =>
    (!rest.any (fun x => x.user_id == r.user_id && x.role == r.role)) && rolesConstraintOk rest

/-- Uniqueness per principal as the spec words it for claim C5
(one active role row per principal): no two rows agree on the user alone. -/
def specUniquePerPrincipal : List RoleRow → Bool
  | [] => true
  | r :: rest => (!rest.any (fun x => x.user_id == r.user_id)) && specUniquePerPrincipal rest

/-- A row of public.visitors, keeping the columns the verified policies read.
Omitted columns (contact, host and timestamp fields) never occur in a policy. -/
structure VisitorRow where
  id : String
  badge_id : String
  full_name : String
  status : String
  created_by : Option UserId
deriving DecidableEq, Repr

/-- Visitor SELECT access after migration 20260204055834: the policies
"Admins can view all visitors" and "Staff can view visitors they created"
are permissive policies combined by OR. The second policy USING clause is
created_by = auth.uid() with no staff condition. -/
def canSelectVisitor (roles : List RoleRow) (s : UserId) (v : VisitorRow) : Bool :=
  has_role roles s AppRole.admin || v.created_by == some s

/-- Visitor read condition as the spec's policy table words it:
isAdmin(subject) OR (isStaff(subject) AND subject == row.created_by). -/
def specVisitorRead (roles : List RoleRow) (s : UserId) (v : VisitorRow) : Bool :=
  has_role roles s AppRole.admin || (is_staff roles s && v.created_by == some s)

/-- Visitor UPDATE access after the fix migration: policy
"Admins or creator can update visitors". -/
def canUpdateVisitor (roles : List RoleRow) (s : UserId) (v : VisitorRow) : Bool :=
  has_role roles s AppRole.admin || v.created_by == some s

/-- Visitor INSERT access: policy "Staff can insert visitors". -/
def canInsertVisitor (roles : List RoleRow) (s : UserId) : Bool :=
  is_staff roles s

/-- Visitor ids that resolve through the caller's RLS-scoped client: the
edge functions validate the payload's visitor id with a SELECT issued as the
calling user, so only rows the caller may read under the visitor SELECT
policies are found. -/
def visibleVisitorIds (roles : List RoleRow) (uid : UserId) (visitors : List VisitorRow) :
    List String :=
  (visitors.filter (fun v => canSelectVisitor roles uid v)).map (fun v => v.id)

/-- A row of public.pre_registrations, keeping the columns the policies read. -/
structure PreRegRow where
  id : String
  host_user_id : UserId
  status : String
deriving DecidableEq, Repr

/-- Pre-registration SELECT access: policies "Staff can view all
pre-registrations" and "Users can view own pre-registrations" OR-combined. -/
def canSelectPreReg (roles : List RoleRow) (s : UserId) (row : PreRegRow) : Bool :=
  is_staff roles s || row.host_user_id == s

/-- Pre-registration UPDATE access: policies "Users can update own
pre-registrations" and "Staff can update any pre-registrations" OR-combined. -/
def canUpdatePreReg (roles : List RoleRow) (s : UserId) (row : PreRegRow) : Bool :=
  row.host_user_id == s || is_staff roles s

/-- Pre-registration DELETE access: the only DELETE policy is
"Users can delete own pre-registrations" USING (host_user_id = auth.uid()). -/
def canDeletePreReg (s : UserId) (row : PreRegRow) : Bool :=
  row.host_user_id == s

/-- Pre-registration INSERT access: policy "Users can create pre-registrations"
WITH CHECK (host_user_id = auth.uid()). -/
def canInsertPreReg (s : UserId) (row : PreRegRow) : Bool :=
  row.host_user_id == s

/-- Evaluation of a set of permissive row-level-security policies:
access is allowed when some policy in the list allows it, and a table
with no policy for an operation denies that operation. -/
def rlsAny (ps : List (List RoleRow → UserId → Bool)) (roles : List RoleRow) (s : UserId) : Bool :=
  ps.any (fun p => p roles s)

/-- SELECT policies on public.audit_logs: only "Admins can view audit logs". -/
def auditSelectPolicies : List (List RoleRow → UserId → Bool) :=
  [fun roles s => has_role roles s AppRole.admin]

/-- INSERT policies on public.audit_logs: only "Service role can insert audit
logs" whose WITH CHECK clause is the constant false. -/
def auditInsertPolicies : List (List RoleRow → UserId → Bool) :=
  [fun _ _ => false]

/-- UPDATE policies on public.audit_logs: none is created by any migration. -/
def auditUpdatePolicies : List (List RoleRow → UserId → Bool) := []

/-- DELETE policies on public.audit_logs: none is created by any migration. -/
def auditDeletePolicies : List (List RoleRow → UserId → Bool) := []

/-- Whether a principal may SELECT audit log rows. -/
def canSelectAudit (roles : List RoleRow) (s : UserId) : Bool :=
  rlsAny auditSelectPolicies roles s

/-- Whether a principal may INSERT audit log rows through the client path. -/
def canInsertAudit (roles : List RoleRow) (s : UserId) : Bool :=
  rlsAny auditInsertPolicies roles s

/-- Whether a principal may UPDATE audit log rows. -/
def canUpdateAudit (roles : List RoleRow) (s : UserId) : Bool :=
  rlsAny auditUpdatePolicies roles s

/-- Whether a principal may DELETE audit log rows. -/
def canDeleteAudit (roles : List RoleRow) (s : UserId) : Bool :=
  rlsAny auditDeletePolicies roles s

/-- An audit_logs row produced by create_audit_log. The JSONB old_values and
new_values snapshots of role changes are flattened to the role and user they
carry; the metadata snapshot carries performed_by. -/
structure AuditEntry where
  user_id : Option UserId
  action : String
  resource_type : String
  resource_id : Option UserId
  old_role : Option AppRole
  old_user : Option UserId
  new_role : Option AppRole
  new_user : Option UserId
  performed_by : Option UserId
deriving DecidableEq, Repr

/-- The entry written by log_role_changes on INSERT: action role_assigned,
actor auth.uid(), resource the affected user, new snapshot of role and user. -/
def roleInsertAuditEntry (actor : Option UserId) (row : RoleRow) : AuditEntry :=
  { user_id := actor
    action := "role_assigned"
    resource_type := "user_roles"
    resource_id := some row.user_id
    old_role := none
    old_user := none
    new_role := some row.role
    new_user := some row.user_id
    performed_by := actor }

/-- The entry written by log_role_changes on DELETE: action role_removed,
actor auth.uid(), resource the affected user, old snapshot of role and user. -/
def roleDeleteAuditEntry (actor : Option UserId) (row : RoleRow) : AuditEntry :=
  { user_id := actor
    action := "role_removed"
    resource_type := "user_roles"
    resource_id := some row.user_id
    old_role := some row.role
    old_user := some row.user_id
    new_role := none
    new_user := none
    performed_by := actor }

/-- A row of public.profiles (created_at and updated_at omitted). -/
structure Profile where
  id : UserId
  email : String
  display_name : String
deriving DecidableEq, Repr

/-- Database state: the role store, the append-only audit log and profiles. -/
structure Db where
  roles : List RoleRow
  audit : List AuditEntry
  profiles : List Profile
deriving DecidableEq, Repr

/-- Failure modes of a SQL statement in this model. -/
inductive SqlError where
  | rlsViolation
  | uniqueViolation
deriving DecidableEq, Repr

/-- INSERT INTO user_roles as issued by the client, under the policy
"Admins can insert roles for others" (admin actor and target distinct from
the actor), the UNIQUE (user_id, role) constraint, and the AFTER INSERT
audit trigger log_role_changes. -/
def insertUserRole (actor : UserId) (target : UserId) (r : AppRole) (db : Db) :
    Except SqlError Db :=
  if !(has_role db.roles actor AppRole.admin && target != actor) then
    Except.error SqlError.rlsViolation
  else if db.roles.any (fun row => row.user_id == target && row.role == r) then
    Except.error SqlError.uniqueViolation
  else
    Except.ok
      { db with
        roles := db.roles ++ [{ user_id := target, role := r }]
        audit := db.audit ++ [roleInsertAuditEntry (some actor) { user_id := target, role := r }] }

/-- DELETE FROM user_roles WHERE user_id = target as issued by the client.
The policy "Admins can delete roles for others" filters the visible rows, so
a non-permitted delete removes nothing instead of failing; the AFTER DELETE
trigger writes one role_removed entry per deleted row. -/
def deleteUserRoles (actor : UserId) (target : UserId) (db : Db) : Db :=
  if has_role db.roles actor AppRole.admin && target != actor then
    { db with
      roles := db.roles.filter (fun row => row.user_id != target)
      audit := db.audit ++
        (db.roles.filter (fun row => row.user_id == target)).map
          (roleDeleteAuditEntry (some actor)) }
  else db

/-- Outcome of the updateUserRole client operation in useUserManagement.ts. -/
inductive RoleUpdateResult where
  | success
  | permissionDenied
  | selfActionDenied
  | dbError
deriving DecidableEq, Repr

/-- Whether an updateUserRole outcome is an authorization failure
(the Permission Denied and Action Not Allowed paths). -/
def isAuthFailure : RoleUpdateResult → Bool
  | RoleUpdateResult.permissionDenied => true
  | RoleUpdateResult.selfActionDenied => true
  | _ => false

/-- The updateUserRole operation of useUserManagement.ts: reject non-admin
actors, reject self-changes, then delete the target's existing role rows and
insert the new role. The client isAdmin flag comes from the AuthContext,
which is not under src; modelled from the spec, isAdmin(principalId) is
role == admin, which coincides with the SQL has_role check. -/
def updateUserRole (actor : UserId) (target : UserId) (r : AppRole) (db : Db) :
    RoleUpdateResult × Db :=
  if !(has_role db.roles actor AppRole.admin) then (RoleUpdateResult.permissionDenied, db)
  else if target == actor then (RoleUpdateResult.selfActionDenied, db)
  else
    let db1 := deleteUserRoles actor target db
    match insertUserRole actor target r db1 with
    | Except.ok db2 => (RoleUpdateResult.success, db2)
    | Except.error _ => (RoleUpdateResult.dbError, db1)

/-- Role lookup as useUserManagement.ts builds it: the role map is populated
row by row, a later row for the same user overwriting an earlier one, and a
missing entry reads as the implicit user role. -/
def getRole (roles : List RoleRow) (u : UserId) : AppRole :=
  match roles.reverse.find? (fun row => row.user_id == u) with
  | some row => row.role
  | none => AppRole.user

/-- Local part of an email address: split_part(email, '@', 1). -/
def splitLocalPart (email : String) : String :=
  email.takeWhile (fun c => c != '@')

/-- The handle_new_user onboarding trigger: create the profile row, then give
the new principal the admin role when user_roles is empty and the
receptionist role otherwise. The role insert runs as SECURITY DEFINER, so no
row-level policy applies, and the audit trigger fires with a null auth.uid(). -/
def handle_new_user (newId : UserId) (email : String) (metaName : Option String) (db : Db) : Db :=
  let prof : Profile :=
    { id := newId, email := email, display_name := metaName.getD (splitLocalPart email) }
  let r := if db.roles.length == 0 then AppRole.admin else AppRole.receptionist
  let row : RoleRow := { user_id := newId, role := r }
  { db with
    profiles := db.profiles ++ [prof]
    roles := db.roles ++ [row]
    audit := db.audit ++ [roleInsertAuditEntry none row] }

/-- Event type of a notification dispatch: 'checkin' or 'checkout'. -/
inductive EventType where
  | checkin
  | checkout
deriving DecidableEq, Repr

/-- A row of public.webhook_settings as the WebhookSetting interface of the
notification edge function reads it. -/
structure WebhookSetting where
  id : String
  name : String
  webhook_url : String
  webhook_type : String
  is_active : Bool
  notify_on_checkin : Bool
  notify_on_checkout : Bool
deriving DecidableEq, Repr

/-- The Visitor interface of the send-visitor-notification edge function. -/
structure VisitorPayload where
  id : String
  badge_id : String
  full_name : String
  phone_number : String
  email : Option String
  company_name : String
  host_name : String
  host_email : Option String
  purpose : String
  check_in_time : String
  check_out_time : Option String
  status : String
deriving DecidableEq, Repr

/-- Whether a character falls in the class the webhook sanitizer strips:
the regex character class x00 to x1F together with x7F. -/
def isControlByte (c : Char) : Bool :=
  c.toNat ≤ 0x1F || c.toNat == 0x7F

/-- The escapeText sanitizer of the authenticated webhook function: remove
control characters, then truncate to the first 500 characters. -/
def escapeText (s : String) : String :=
  String.mk ((s.data.filter (fun c => !isControlByte c)).take 500)

/-- The safeVisitor construction of the webhook function: every free-text
field runs through escapeText; the optional emails stay null when absent
or empty, matching the conditional expressions in the source. -/
def sanitizeVisitor (v : VisitorPayload) : VisitorPayload :=
  { v with
    full_name := escapeText v.full_name
    badge_id := escapeText v.badge_id
    company_name := escapeText v.company_name
    host_name := escapeText v.host_name
    purpose := escapeText v.purpose
    phone_number := escapeText v.phone_number
    email :=
      match v.email with
      | some e => if e.isEmpty then none else some (escapeText e)
      | none => none
    host_email :=
      match v.host_email with
      | some e => if e.isEmpty then none else some (escapeText e)
      | none => none }

/-- Whether a webhook target is notified for an event type, matching the
filter over notify_on_checkin and notify_on_checkout in both functions. -/
def notifyMatches (e : EventType) (w : WebhookSetting) : Bool :=
  match e with
  | EventType.checkin => w.notify_on_checkin
  | EventType.checkout => w.notify_on_checkout

/-- The staff gate of the authenticated edge functions: select the role row
of the resolved user with maybeSingle, which yields a row only when exactly
one matches, and require the role to be admin or receptionist. -/
def staffRoleCheck (roles : List RoleRow) (uid : UserId) : Bool :=
  match roles.filter (fun row => row.user_id == uid) with
  | [row] => row.role == AppRole.admin || row.role == AppRole.receptionist
  | _ => false

/-- One entry of the per-target result summary of the webhook fan-out. -/
structure DispatchResult where
  webhook : String
  success : Bool
  error : Option String
deriving DecidableEq, Repr

/-- An HTTP response of the webhook fan-out function, flattened to the
status code and the JSON body fields it writes. -/
structure HttpResponse where
  status : Nat
  success : Bool
  error : Option String
  results : List DispatchResult
deriving DecidableEq, Repr

/-- A request to an authenticated edge function: the Authorization header,
the outcome and subject of JWT validation, and the parsed payload. -/
structure NotifyRequest where
  authHeader : Option String
  tokenValid : Bool
  tokenUser : UserId
  visitor : VisitorPayload
  eventType : EventType
deriving Repr

/-- The bearer check authHeader.startsWith of the authenticated edge
functions, expressed over the character lists of the strings. -/
def bearerHeaderOk (h : String) : Bool :=
  "Bearer ".data.isPrefixOf h.data

/-- The per-target branch of the Promise.allSettled fan-out: a fulfilled
delivery yields a success entry, a rejected one a failure entry carrying
the rejection message. The delivery outcome of each target is a parameter,
so each summary entry depends only on its own target. -/
def mkDispatchResult (deliver : WebhookSetting → Option String) (w : WebhookSetting) :
    DispatchResult :=
  match deliver w with
  | none => { webhook := w.name, success := true, error := none }
  | some msg => { webhook := w.name, success := false, error := some msg }

/-- The authenticated send-visitor-notification serve handler: 401 without a
Bearer header or with invalid claims, 403 without a staff role, 404 when the
payload carries a nonempty visitor id that resolves to no row through the
caller's RLS-scoped lookup — the visitorIds argument stands for the ids of
the rows the caller may read under the visitor SELECT policies, since the
validation query runs on the user client — otherwise dispatch to every
active target matching the event type and answer 200 with the per-target
summary. The body of each outbound message is the sanitized visitor, which
does not affect the summary. -/
def sendVisitorNotification (req : NotifyRequest) (roles : List RoleRow)
    (visitorIds : List String) (webhooks : List WebhookSetting)
    (deliver : WebhookSetting → Option String) : HttpResponse :=
  match req.authHeader with
  | none => { status := 401, success := false, error := some "Unauthorized", results := [] }
  | some h =>
    if !(bearerHeaderOk h) then
      { status := 401, success := false, error := some "Unauthorized", results := [] }
    else if !req.tokenValid then
      { status := 401, success := false, error := some "Unauthorized", results := [] }
    else if !(staffRoleCheck roles req.tokenUser) then
      { status := 403, success := false
        error := some "Forbidden - Staff access required", results := [] }
    else if req.visitor.id != "" && !(visitorIds.contains req.visitor.id) then
      { status := 404, success := false, error := some "Visitor not found", results := [] }
    else
      { status := 200, success := true, error := none
        results :=
          ((webhooks.filter (fun w => w.is_active)).filter
            (notifyMatches req.eventType)).map (mkDispatchResult deliver) }

/-- Apostrophe character, written by code point. -/
def apos : Char := Char.ofNat 39

/-- Double quote character, written by code point. -/
def dquote : Char := Char.ofNat 34

/-- Global replacement of a single character by a string, the shape of each
.replace step of the escapeHtml sanitizer. -/
def replaceChar (c : Char) (r : String) (s : String) : String :=
  String.mk (s.data.flatMap (fun x => if x = c then r.data else [x]))

/-- The escapeHtml sanitizer of the authenticated email function: a null or
empty value renders as the empty string, otherwise ampersand, angle
brackets, double quote and apostrophe are rewritten to entities in the
source's replacement order. -/
def escapeHtml : Option String → String
  | none => ""
  | some s =>
    replaceChar apos "&#039;"
      (replaceChar dquote "&quot;"
        (replaceChar '>' "&gt;"
          (replaceChar '<' "&lt;"
            (replaceChar '&' "&amp;" s))))

/-- The Visitor interface of the send-visitor-email edge function. -/
structure EmailVisitor where
  id : Option String
  full_name : String
  email : String
  company_name : String
  host_name : String
  host_email : Option String
  purpose : String
  badge_id : String
  check_in_time : String
deriving DecidableEq, Repr

/-- The safeVisitor object of the email function: every embedded field runs
through escapeHtml before reaching an HTML template. -/
structure SafeVisitor where
  full_name : String
  email : String
  company_name : String
  host_name : String
  host_email : String
  purpose : String
  badge_id : String
deriving DecidableEq, Repr

/-- Construction of safeVisitor in the email function. -/
def safeEmailVisitor (v : EmailVisitor) : SafeVisitor :=
  { full_name := escapeHtml (some v.full_name)
    email := escapeHtml (some v.email)
    company_name := escapeHtml (some v.company_name)
    host_name := escapeHtml (some v.host_name)
    host_email := escapeHtml v.host_email
    purpose := escapeHtml (some v.purpose)
    badge_id := escapeHtml (some v.badge_id) }

/-- The data-bearing table rows of the visitorHtml body of the confirmation
email, with the constant inline styling elided: each visitor-supplied value
embedded in the markup comes from the escaped safeVisitor. -/
def visitorHtmlRows (sv : SafeVisitor) (formattedDate formattedTime : String) : String :=
  "<tr><td>Badge ID</td><td>" ++ sv.badge_id ++ "</td></tr>" ++
  "<tr><td>Date</td><td>" ++ formattedDate ++ "</td></tr>" ++
  "<tr><td>Check-in Time</td><td>" ++ formattedTime ++ "</td></tr>" ++
  "<tr><td>Host</td><td>" ++ sv.host_name ++ "</td></tr>" ++
  "<tr><td>Purpose</td><td>" ++ sv.purpose ++ "</td></tr>"

/-- One entry of the email function's results list. -/
structure EmailResult where
  type : String
  success : Bool
  error : Option String
deriving DecidableEq, Repr

/-- An HTTP response of the email function. -/
structure EmailResponse where
  status : Nat
  success : Bool
  error : Option String
  results : List EmailResult
deriving DecidableEq, Repr

/-- A request to the authenticated email function. -/
structure EmailRequest where
  authHeader : Option String
  tokenValid : Bool
  tokenUser : UserId
  visitor : EmailVisitor
  eventType : EventType
deriving Repr

/-- The authenticated send-visitor-email handler: 401 without a Bearer header
or with invalid claims, 403 without a staff role, 404 when the payload
carries a nonempty visitor id resolving to no row through the caller's
RLS-scoped lookup (visitorIds as in the webhook handler); otherwise on a check-in
event send the confirmation to the visitor and the notification to the host
when the addresses are present, and answer 200 with the results list. The
send outcome per address is a parameter; bodies are built from the escaped
safeVisitor fields. -/
def sendVisitorEmail (req : EmailRequest) (roles : List RoleRow)
    (visitorIds : List String) (send : String → Option String) : EmailResponse :=
  match req.authHeader with
  | none => { status := 401, success := false, error := some "Unauthorized", results := [] }
  | some h =>
    if !(bearerHeaderOk h) then
      { status := 401, success := false, error := some "Unauthorized", results := [] }
    else if !req.tokenValid then
      { status := 401, success := false, error := some "Unauthorized", results := [] }
    else if !(staffRoleCheck roles req.tokenUser) then
      { status := 403, success := false
        error := some "Forbidden - Staff access required", results := [] }
    else if (req.visitor.id.getD "") != "" && !(visitorIds.contains (req.visitor.id.getD "")) then
      { status := 404, success := false, error := some "Visitor not found", results := [] }
    else
      let r1 : List EmailResult :=
        if !req.visitor.email.isEmpty && req.eventType == EventType.checkin then
          [{ type := "visitor_confirmation"
             success := (send req.visitor.email).isNone
             error := send req.visitor.email }]
        else []
      let r2 : List EmailResult :=
        match req.visitor.host_email with
        | some he =>
          if !he.isEmpty && req.eventType == EventType.checkin then
            [{ type := "host_notification"
               success := (send he).isNone
               error := send he }]
          else []
        | none => []
      { status := 200, success := true, error := none, results := r1 ++ r2 }

/-- Concrete role store holding a single admin, principal 0. -/
def adminOnlyRoles : List RoleRow := [{ user_id := 0, role := AppRole.admin }]

/-- Concrete role store holding a single receptionist, principal 2. -/
def staffOnlyRoles : List RoleRow := [{ user_id := 2, role := AppRole.receptionist }]

/-- Concrete role store where principal 1 holds the plain user role. -/
def demotedCreatorRoles : List RoleRow := [{ user_id := 1, role := AppRole.user }]

/-- Concrete visitor row created by principal 1. -/
def sampleVisitor : VisitorRow :=
  { id := "v1", badge_id := "B-100", full_name := "Alice", status := "checked-in"
    created_by := some 1 }

/-- Concrete pre-registration row hosted by principal 1. -/
def samplePreReg : PreRegRow := { id := "p1", host_user_id := 1, status := "pending" }

/-- Concrete database seed: principal 0 is the only admin, no audit yet. -/
def dbSeed : Db := { roles := adminOnlyRoles, audit := [], profiles := [] }

/-- Two consecutive permitted role inserts for principal 1 by admin 0,
assigning receptionist and then admin. -/
def afterTwoInserts : Except SqlError Db :=
  (insertUserRole 0 1 AppRole.receptionist dbSeed).bind (insertUserRole 0 1 AppRole.admin)

/-- C6: audit log entries are immutable and undeletable through every
principal-facing path, for every principal including admins: the audit_logs
table has no UPDATE or DELETE policy, and its only INSERT policy carries the
constant-false WITH CHECK clause, so no direct client write is permitted;
the only writer is the SECURITY DEFINER create_audit_log function. -/
theorem audit_log_immutable :
    ∀ (roles : List RoleRow) (s : UserId),
      canUpdateAudit roles s = false ∧ canDeleteAudit roles s = false ∧
      canInsertAudit roles s = false := by
  intro roles s
  exact ⟨rfl, rfl, rfl⟩

/-- C10 counterexample: principal 2 is a receptionist and not the host of
samplePreReg, may update it, but the DELETE policy evaluates to false, so a
staff principal who is not the host cannot delete a pre-registration. -/
theorem prereg_delete_cex :
    is_staff staffOnlyRoles 2 = true ∧
    samplePreReg.host_user_id ≠ 2 ∧
    canDeletePreReg 2 samplePreReg = false ∧
    canUpdatePreReg staffOnlyRoles 2 samplePreReg = true := by
  exact ⟨rfl, by decide, rfl, rfl⟩

/-- C10 amended: a subject may update a pre-registration exactly when the
subject is the host or staff, but may delete it exactly when the subject is
the host; staff status grants no delete right. -/
theorem prereg_mutation_amended :
    ∀ (roles : List RoleRow) (s : UserId) (row : PreRegRow),
      (canUpdatePreReg roles s row = true ↔
        (row.host_user_id = s ∨ is_staff roles s = true)) ∧
      (canDeletePreReg s row = true ↔ row.host_user_id = s) := by
  intro roles s row
  constructor
  · simp [canUpdatePreReg]
  · simp [canDeletePreReg]

/-- C1 counterexample: principal 1 holds only the plain user role and created
sampleVisitor; the deployed SELECT policies allow the read even though the
claim's condition, requiring a staff role alongside creatorship, denies it. -/
theorem visitorRead_policy_cex :
    canSelectVisitor demotedCreatorRoles 1 sampleVisitor = true ∧
    specVisitorRead demotedCreatorRoles 1 sampleVisitor = false ∧
    is_staff demotedCreatorRoles 1 = false ∧
    has_role demotedCreatorRoles 1 AppRole.admin = false := by
  exact ⟨rfl, rfl, rfl, rfl⟩

/-- C1 amended: reading a visitor record is allowed exactly when the subject
is an admin or is the record's creator; the creator branch carries no staff
requirement. In particular an admin is always allowed, and a non-admin staff
principal who is not the creator is denied. -/
theorem visitorRead_policy_amended :
    ∀ (roles : List RoleRow) (s : UserId) (v : VisitorRow),
      (canSelectVisitor roles s v = true ↔
        (has_role roles s AppRole.admin = true ∨ v.created_by = some s)) ∧
      (has_role roles s AppRole.admin = true → canSelectVisitor roles s v = true) ∧
      (is_staff roles s = true → has_role roles s AppRole.admin = false →
        v.created_by ≠ some s → canSelectVisitor roles s v = false) := by
  intro roles s v
  refine ⟨?_, ?_, ?_⟩
  · simp [canSelectVisitor]
  · intro h
    simp [canSelectVisitor, h]
  · intro _ hadm hne
    simp [canSelectVisitor, hadm, hne]

/-- C1 amended witness: admin 0 reads the sample visitor; receptionist 2,
who is not its creator, is denied. -/
theorem visitorRead_policy_amended_witness :
    canSelectVisitor adminOnlyRoles 0 sampleVisitor = true ∧
    canSelectVisitor staffOnlyRoles 2 sampleVisitor = false := by
  exact ⟨(visitorRead_policy_amended adminOnlyRoles 0 sampleVisitor).2.1 rfl,
    (visitorRead_policy_amended staffOnlyRoles 2 sampleVisitor).2.2 rfl rfl (by decide)⟩

theorem roleMatch_comm (a b : RoleRow) :
    (a.user_id == b.user_id && a.role == b.role) =
      (b.user_id == a.user_id && b.role == a.role) := by
  rw [Bool.eq_iff_iff]
  simp only [Bool.and_eq_true, beq_iff_eq]
  exact ⟨fun h => ⟨h.1.symm, h.2.symm⟩, fun h => ⟨h.1.symm, h.2.symm⟩⟩

theorem rolesConstraintOk_append_one (l : List RoleRow) (x : RoleRow) :
    rolesConstraintOk (l ++ [x]) = true ↔
      (rolesConstraintOk l = true ∧
        l.any (fun y => y.user_id == x.user_id && y.role == x.role) = false) := by
  induction l with
  | nil => simp [rolesConstraintOk]
  | cons hd tl ih =>
    simp only [List.cons_append, rolesConstraintOk, List.append_eq, Bool.and_eq_true,
      Bool.not_eq_true', List.any_append, List.any_cons, List.any_nil, Bool.or_false,
      Bool.or_eq_false_iff, ih]
    rw [roleMatch_comm x hd]
    tauto

theorem insertUserRole_ok_iff (actor target : UserId) (r : AppRole) (db db' : Db) :
    insertUserRole actor target r db = Except.ok db' ↔
      ((has_role db.roles actor AppRole.admin && target != actor) = true ∧
        db.roles.any (fun row => row.user_id == target && row.role == r) = false ∧
        db' = { db with
          roles := db.roles ++ [{ user_id := target, role := r }]
          audit := db.audit ++
            [roleInsertAuditEntry (some actor) { user_id := target, role := r }] }) := by
  unfold insertUserRole
  constructor
  · intro hok
    split at hok
    · simp at hok
    · split at hok
      · simp at hok
      · next h1 h2 =>
        refine ⟨by simpa using h1, by simpa using h2, ?_⟩
        injection hok with h
        exact h.symm
  · rintro ⟨h1, h2, rfl⟩
    rw [if_neg (by simp [h1]), if_neg (by simp [h2])]

/-- C5 counterexample: starting from a store holding only admin 0, the two
role inserts for principal 1 (receptionist, then admin) are both permitted,
and the resulting store satisfies the table's UNIQUE (user_id, role)
constraint while principal 1 holds two role rows; uniqueness per principal
fails. -/
theorem role_uniqueness_cex :
    afterTwoInserts.map (fun db =>
      rolesConstraintOk db.roles &&
      (!specUniquePerPrincipal db.roles) &&
      ((db.roles.filter (fun row => row.user_id == 1)).length == 2)) = Except.ok true := by
  rfl

/-- C5 amended: the unique constraint of user_roles is on the pair
(user_id, role), so a principal can never hold two rows with the same role
value, and every permitted insert preserves this; a principal may however
hold several rows with distinct role values, so at most one row per
principal is not schema-enforced. -/
theorem role_uniqueness_amended :
    (∀ (l : List RoleRow), rolesConstraintOk l = true → ∀ (u : UserId) (r : AppRole),
      (l.filter (fun row => row.user_id == u && row.role == r)).length ≤ 1) ∧
    (∀ (db db' : Db) (actor target : UserId) (r : AppRole),
      insertUserRole actor target r db = Except.ok db' →
      rolesConstraintOk db.roles = true → rolesConstraintOk db'.roles = true) := by
  constructor
  · intro l
    induction l with
    | nil =>
      intro _ u r
      simp
    | cons hd tl ih =>
      intro h u r
      rw [rolesConstraintOk, Bool.and_eq_true, Bool.not_eq_true'] at h
      obtain ⟨h1, h2⟩ := h
      by_cases hp : (hd.user_id == u && hd.role == r) = true
      · rw [List.filter_cons_of_pos (p := fun row : RoleRow => row.user_id == u && row.role == r) hp]
        have hh : hd.user_id = u ∧ hd.role = r := by
          simpa [Bool.and_eq_true, beq_iff_eq] using hp
        have hfe : tl.filter (fun row => row.user_id == u && row.role == r) = [] := by
          rw [List.filter_eq_nil_iff]
          intro x hx hpx
          have hx1 : x.user_id = u ∧ x.role = r := by
            simpa [Bool.and_eq_true, beq_iff_eq] using hpx
          have hcontra :
              tl.any (fun y => y.user_id == hd.user_id && y.role == hd.role) = true := by
            rw [List.any_eq_true]
            exact ⟨x, hx, by simp [beq_iff_eq, hx1.1, hx1.2, hh.1, hh.2]⟩
          rw [h1] at hcontra
          exact Bool.false_ne_true hcontra
        simp [hfe]
      · rw [List.filter_cons_of_neg
          (p := fun row : RoleRow => row.user_id == u && row.role == r) (by simpa using hp)]
        exact ih h2 u r
  · intro db db' actor target r hok hc
    obtain ⟨h1, h2, rfl⟩ := (insertUserRole_ok_iff actor target r db db').mp hok
    rw [rolesConstraintOk_append_one]
    exact ⟨hc, by simpa using h2⟩

/-- C5 amended witness: in the two-row store reached by the counterexample
scenario, the pair-wise uniqueness bound holds for principal 1 and the admin
role, and the first insert preserved the constraint of the seed store. -/
theorem role_uniqueness_amended_witness :
    (([{ user_id := 0, role := AppRole.admin }, { user_id := 1, role := AppRole.receptionist },
        { user_id := 1, role := AppRole.admin }] : List RoleRow).filter
      (fun row => row.user_id == 1 && row.role == AppRole.admin)).length ≤ 1 := by
  exact role_uniqueness_amended.1
    [{ user_id := 0, role := AppRole.admin }, { user_id := 1, role := AppRole.receptionist },
      { user_id := 1, role := AppRole.admin }] (by decide) 1 AppRole.admin

theorem deleteUserRoles_permitted (actor target : UserId) (db : Db)
    (h : (has_role db.roles actor AppRole.admin && target != actor) = true) :
    deleteUserRoles actor target db =
      { db with
        roles := db.roles.filter (fun row => row.user_id != target)
        audit := db.audit ++
          (db.roles.filter (fun row => row.user_id == target)).map
            (roleDeleteAuditEntry (some actor)) } := by
  rw [deleteUserRoles, if_pos h]

theorem has_role_filter_ne (roles : List RoleRow) (actor target : UserId) (r : AppRole)
    (h : has_role roles actor r = true) (hne : actor ≠ target) :
    has_role (roles.filter (fun row => row.user_id != target)) actor r = true := by
  rw [has_role, List.any_eq_true] at h ⊢
  obtain ⟨row, hmem, hrow⟩ := h
  refine ⟨row, ?_, hrow⟩
  rw [List.mem_filter]
  refine ⟨hmem, ?_⟩
  rw [Bool.and_eq_true] at hrow
  have huid : row.user_id = actor := beq_iff_eq.mp hrow.1
  simp [bne_iff_ne, huid, hne]

theorem not_any_pair_filter_ne (roles : List RoleRow) (target : UserId) (r : AppRole) :
    (roles.filter (fun row => row.user_id != target)).any
      (fun row => row.user_id == target && row.role == r) = false := by
  rw [List.any_eq_false]
  intro x hx
  rw [List.mem_filter] at hx
  obtain ⟨_, hxt⟩ := hx
  simp only [bne_iff_ne] at hxt
  simp [hxt]

theorem getRole_append_last (l : List RoleRow) (u : UserId) (r : AppRole) :
    getRole (l ++ [{ user_id := u, role := r }]) u = r := by
  rw [getRole]
  simp [List.reverse_append, List.find?]

theorem updateUserRole_success (db : Db) (actor target : UserId) (r : AppRole)
    (hadm : has_role db.roles actor AppRole.admin = true) (hne : target ≠ actor) :
    updateUserRole actor target r db =
      (RoleUpdateResult.success,
        { db with
          roles := db.roles.filter (fun row => row.user_id != target) ++
            [{ user_id := target, role := r }]
          audit := (db.audit ++
            (db.roles.filter (fun row => row.user_id == target)).map
              (roleDeleteAuditEntry (some actor))) ++
            [roleInsertAuditEntry (some actor) { user_id := target, role := r }] }) := by
  have hguard : (has_role db.roles actor AppRole.admin && target != actor) = true := by
    simp [hadm, bne_iff_ne, hne]
  have hadm1 :
      has_role (db.roles.filter (fun row => row.user_id != target)) actor AppRole.admin = true :=
    has_role_filter_ne db.roles actor target AppRole.admin hadm (fun he => hne he.symm)
  rw [updateUserRole, if_neg (by simp [hadm]), if_neg (by simp [hne])]
  rw [deleteUserRoles_permitted actor target db hguard]
  have hins :=
    (insertUserRole_ok_iff actor target r
      { db with
        roles := db.roles.filter (fun row => row.user_id != target)
        audit := db.audit ++
          (db.roles.filter (fun row => row.user_id == target)).map
            (roleDeleteAuditEntry (some actor)) }
      { db with
        roles := db.roles.filter (fun row => row.user_id != target) ++
          [{ user_id := target, role := r }]
        audit := (db.audit ++
          (db.roles.filter (fun row => row.user_id == target)).map
            (roleDeleteAuditEntry (some actor))) ++
          [roleInsertAuditEntry (some actor) { user_id := target, role := r }] }).mpr
      ⟨by simp [hadm1, bne_iff_ne, hne], not_any_pair_filter_ne db.roles target r, rfl⟩
  simp only [hins]

/-- C2: setRole, implemented by updateUserRole as delete-then-insert,
succeeds for every admin actor and distinct target, after which getRole of
the target yields the new role; a self-targeted call always fails with an
authorization error regardless of the role and leaves the store unchanged,
and a non-admin actor is always rejected with a permission failure leaving
the store unchanged. -/
theorem setRole_authorization :
    ∀ (db : Db) (actor target : UserId) (r : AppRole),
      (has_role db.roles actor AppRole.admin = true → target ≠ actor →
        (updateUserRole actor target r db).1 = RoleUpdateResult.success ∧
        getRole (updateUserRole actor target r db).2.roles target = r) ∧
      (target = actor →
        isAuthFailure (updateUserRole actor target r db).1 = true ∧
        (updateUserRole actor target r db).2 = db) ∧
      (has_role db.roles actor AppRole.admin = false →
        (updateUserRole actor target r db).1 = RoleUpdateResult.permissionDenied ∧
        isAuthFailure (updateUserRole actor target r db).1 = true ∧
        (updateUserRole actor target r db).2 = db) := by
  intro db actor target r
  refine ⟨?_, ?_, ?_⟩
  · intro hadm hne
    rw [updateUserRole_success db actor target r hadm hne]
    exact ⟨rfl, getRole_append_last _ target r⟩
  · intro heq
    by_cases hadm : has_role db.roles actor AppRole.admin = true
    · rw [updateUserRole, if_neg (by simp [hadm]), if_pos (by simp [heq])]
      exact ⟨rfl, rfl⟩
    · rw [Bool.not_eq_true] at hadm
      rw [updateUserRole, if_pos (by simp [hadm])]
      exact ⟨rfl, rfl⟩
  · intro hadm
    rw [updateUserRole, if_pos (by simp [hadm])]
    exact ⟨rfl, rfl, rfl⟩

/-- C2 witness: in the seed store, admin 0 successfully sets principal 1 to
receptionist and the lookup then yields receptionist; the self-targeted call
of 0 and the call by non-admin 1 fail with authorization errors. -/
theorem setRole_authorization_witness :
    (updateUserRole 0 1 AppRole.receptionist dbSeed).1 = RoleUpdateResult.success ∧
    getRole (updateUserRole 0 1 AppRole.receptionist dbSeed).2.roles 1 = AppRole.receptionist ∧
    isAuthFailure (updateUserRole 0 0 AppRole.user dbSeed).1 = true ∧
    (updateUserRole 1 0 AppRole.admin dbSeed).1 = RoleUpdateResult.permissionDenied := by
  exact ⟨((setRole_authorization dbSeed 0 1 AppRole.receptionist).1 rfl (by decide)).1,
    ((setRole_authorization dbSeed 0 1 AppRole.receptionist).1 rfl (by decide)).2,
    ((setRole_authorization dbSeed 0 0 AppRole.user).2.1 rfl).1,
    ((setRole_authorization dbSeed 1 0 AppRole.admin).2.2 rfl).1⟩

/-- C7: role mutations are audited as a trigger-level side effect: a
permitted role insert appends exactly one role_assigned entry capturing the
actor, the affected principal and the new role; a permitted delete of a
principal's single role row appends exactly one role_removed entry capturing
the actor, the principal and the prior role; and the delete-then-insert
update pattern on a principal holding one role row appends exactly those two
entries in order. -/
theorem role_mutation_audited :
    (∀ (db db' : Db) (actor target : UserId) (r : AppRole),
      insertUserRole actor target r db = Except.ok db' →
        db'.audit = db.audit ++
          [roleInsertAuditEntry (some actor) { user_id := target, role := r }] ∧
        (roleInsertAuditEntry (some actor) ({ user_id := target, role := r } : RoleRow)).action =
          "role_assigned" ∧
        (roleInsertAuditEntry (some actor) ({ user_id := target, role := r } : RoleRow)).user_id =
          some actor ∧
        (roleInsertAuditEntry (some actor) ({ user_id := target, role := r } : RoleRow)).resource_id =
          some target ∧
        (roleInsertAuditEntry (some actor) ({ user_id := target, role := r } : RoleRow)).new_role =
          some r) ∧
    (∀ (db : Db) (actor target : UserId) (r0 : AppRole),
      (has_role db.roles actor AppRole.admin && target != actor) = true →
      db.roles.filter (fun row => row.user_id == target) = [{ user_id := target, role := r0 }] →
        (deleteUserRoles actor target db).audit = db.audit ++
          [roleDeleteAuditEntry (some actor) { user_id := target, role := r0 }] ∧
        (roleDeleteAuditEntry (some actor) ({ user_id := target, role := r0 } : RoleRow)).action =
          "role_removed" ∧
        (roleDeleteAuditEntry (some actor) ({ user_id := target, role := r0 } : RoleRow)).user_id =
          some actor ∧
        (roleDeleteAuditEntry (some actor) ({ user_id := target, role := r0 } : RoleRow)).resource_id =
          some target ∧
        (roleDeleteAuditEntry (some actor) ({ user_id := target, role := r0 } : RoleRow)).old_role =
          some r0) ∧
    (∀ (db : Db) (actor target : UserId) (r r0 : AppRole),
      has_role db.roles actor AppRole.admin = true → target ≠ actor →
      db.roles.filter (fun row => row.user_id == target) = [{ user_id := target, role := r0 }] →
        (updateUserRole actor target r db).2.audit = db.audit ++
          [roleDeleteAuditEntry (some actor) { user_id := target, role := r0 },
            roleInsertAuditEntry (some actor) { user_id := target, role := r }]) := by
  refine ⟨?_, ?_, ?_⟩
  · intro db db' actor target r hok
    obtain ⟨_, _, rfl⟩ := (insertUserRole_ok_iff actor target r db db').mp hok
    exact ⟨rfl, rfl, rfl, rfl, rfl⟩
  · intro db actor target r0 hguard hone
    rw [deleteUserRoles_permitted actor target db hguard]
    refine ⟨?_, rfl, rfl, rfl, rfl⟩
    simp [hone]
  · intro db actor target r r0 hadm hne hone
    rw [updateUserRole_success db actor target r hadm hne]
    simp [hone]

/-- Concrete database where admin 0 and receptionist 1 each hold one row. -/
def dbRecep : Db :=
  { roles := [{ user_id := 0, role := AppRole.admin },
      { user_id := 1, role := AppRole.receptionist }]
    audit := [], profiles := [] }

/-- C7 witness: admin 0 updates principal 1 from receptionist to admin; the
delete-then-insert pattern appends exactly the role_removed and
role_assigned entries. -/
theorem role_mutation_audited_witness :
    (updateUserRole 0 1 AppRole.admin dbRecep).2.audit = dbRecep.audit ++
      [roleDeleteAuditEntry (some 0) { user_id := 1, role := AppRole.receptionist },
        roleInsertAuditEntry (some 0) { user_id := 1, role := AppRole.admin }] := by
  exact role_mutation_audited.2.2 dbRecep 0 1 AppRole.admin AppRole.receptionist
    rfl (by decide) (by decide)

/-- C9: the onboarding trigger creates the matching profile row and assigns
the admin role when no role row exists yet (the first-ever principal), with
a role_assigned audit entry whose actor is null since the insert is
system-initiated; every later signup gets the receptionist role, likewise
audited with a null actor. -/
theorem onboarding_roles :
    ∀ (db : Db) (u : UserId) (e : String) (n : Option String),
      (db.roles = [] →
        (handle_new_user u e n db).roles = [{ user_id := u, role := AppRole.admin }] ∧
        getRole (handle_new_user u e n db).roles u = AppRole.admin ∧
        (handle_new_user u e n db).audit = db.audit ++
          [roleInsertAuditEntry none { user_id := u, role := AppRole.admin }] ∧
        (roleInsertAuditEntry none ({ user_id := u, role := AppRole.admin } : RoleRow)).user_id =
          none ∧
        (roleInsertAuditEntry none ({ user_id := u, role := AppRole.admin } : RoleRow)).action =
          "role_assigned" ∧
        (handle_new_user u e n db).profiles = db.profiles ++
          [{ id := u, email := e, display_name := n.getD (splitLocalPart e) }]) ∧
      (db.roles ≠ [] →
        (handle_new_user u e n db).roles =
          db.roles ++ [{ user_id := u, role := AppRole.receptionist }] ∧
        getRole (handle_new_user u e n db).roles u = AppRole.receptionist ∧
        (handle_new_user u e n db).audit = db.audit ++
          [roleInsertAuditEntry none { user_id := u, role := AppRole.receptionist }] ∧
        (roleInsertAuditEntry none ({ user_id := u, role := AppRole.receptionist } : RoleRow)).user_id =
          none ∧
        (handle_new_user u e n db).profiles = db.profiles ++
          [{ id := u, email := e, display_name := n.getD (splitLocalPart e) }]) := by
  intro db u e n
  constructor
  · intro h
    have hlen : (db.roles.length == 0) = true := by
      simp [h]
    refine ⟨?_, ?_, ?_, rfl, rfl, ?_⟩
    · simp [handle_new_user, hlen, h]
    · have hroles : (handle_new_user u e n db).roles =
          [] ++ [{ user_id := u, role := AppRole.admin }] := by
        simp [handle_new_user, hlen, h]
      rw [hroles]
      exact getRole_append_last [] u AppRole.admin
    · simp [handle_new_user, hlen]
    · simp [handle_new_user]
  · intro h
    have hlen : (db.roles.length == 0) = false := by
      cases hr : db.roles with
      | nil => exact absurd hr h
      | cons hd tl => simp [hr]
    refine ⟨?_, ?_, ?_, rfl, ?_⟩
    · simp [handle_new_user, hlen]
    · have hroles : (handle_new_user u e n db).roles =
          db.roles ++ [{ user_id := u, role := AppRole.receptionist }] := by
        simp [handle_new_user, hlen]
      rw [hroles]
      exact getRole_append_last db.roles u AppRole.receptionist
    · simp [handle_new_user, hlen]
    · simp [handle_new_user]

/-- C9 witness: on an empty store principal 7 becomes admin; on the seed
store, which already holds admin 0, principal 7 becomes receptionist. -/
theorem onboarding_roles_witness :
    getRole (handle_new_user 7 "a@x.io" none
      { roles := [], audit := [], profiles := [] }).roles 7 = AppRole.admin ∧
    getRole (handle_new_user 7 "a@x.io" none dbSeed).roles 7 = AppRole.receptionist := by
  exact ⟨((onboarding_roles { roles := [], audit := [], profiles := [] }
      7 "a@x.io" none).1 rfl).2.1,
    ((onboarding_roles dbSeed 7 "a@x.io" none).2 (by decide)).2.1⟩

/-- Concrete visitor payload used by the notification witnesses. -/
def sampleVisitorPayload : VisitorPayload :=
  { id := "v1", badge_id := "B-100", full_name := "Alice", phone_number := "555-0100"
    email := none, company_name := "ACME", host_name := "Bob", host_email := none
    purpose := "Meeting", check_in_time := "2026-02-04T08:00:00Z", check_out_time := none
    status := "checked-in" }

/-- Concrete email payload used by the notification witnesses. -/
def sampleEmailVisitor : EmailVisitor :=
  { id := some "v1", full_name := "Alice", email := "alice@acme.example"
    company_name := "ACME", host_name := "Bob", host_email := none
    purpose := "Meeting", badge_id := "B-100", check_in_time := "2026-02-04T08:00:00Z" }

/-- Email payload whose purpose field carries a script tag. -/
def scriptEmailVisitor : EmailVisitor :=
  { sampleEmailVisitor with purpose := "<script>alert(1)</script>" }

/-- Concrete active Slack target notifying on check-in. -/
def webhookA : WebhookSetting :=
  { id := "w1", name := "slack-main", webhook_url := "https://hooks.example/a"
    webhook_type := "slack", is_active := true
    notify_on_checkin := true, notify_on_checkout := false }

/-- Concrete active Teams target notifying on check-in. -/
def webhookB : WebhookSetting :=
  { id := "w2", name := "teams-ops", webhook_url := "https://hooks.example/b"
    webhook_type := "teams", is_active := true
    notify_on_checkin := true, notify_on_checkout := false }

/-- Delivery oracle where only the Teams target fails. -/
def deliverFailSecond : WebhookSetting → Option String :=
  fun w => if w.name == "teams-ops" then some "HTTP 500" else none

/-- Concrete authenticated check-in request by receptionist 2. -/
def reqCheckin : NotifyRequest :=
  { authHeader := some "Bearer x", tokenValid := true, tokenUser := 2
    visitor := sampleVisitorPayload, eventType := EventType.checkin }

/-- Concrete authenticated check-out request by receptionist 2. -/
def reqCheckout : NotifyRequest :=
  { authHeader := some "Bearer x", tokenValid := true, tokenUser := 2
    visitor := sampleVisitorPayload, eventType := EventType.checkout }

theorem mem_replaceChar {x c : Char} {r s : String}
    (hx : x ∈ (replaceChar c r s).data) : x ∈ r.data ∨ (x ∈ s.data ∧ x ≠ c) := by
  have hx' : x ∈ s.data.flatMap (fun y => if y = c then r.data else [y]) := hx
  rw [List.mem_flatMap] at hx'
  obtain ⟨a, ha, hxa⟩ := hx'
  by_cases hac : a = c
  · rw [if_pos hac] at hxa
    exact Or.inl hxa
  · rw [if_neg hac] at hxa
    rw [List.mem_singleton] at hxa
    subst hxa
    exact Or.inr ⟨ha, hac⟩

theorem escapeText_length (s : String) : (escapeText s).data.length ≤ 500 := by
  have hdata : (escapeText s).data = (s.data.filter (fun c => !isControlByte c)).take 500 := rfl
  rw [hdata, List.length_take]
  exact Nat.min_le_left _ _

theorem escapeText_no_control (s : String) (c : Char) (hc : c ∈ (escapeText s).data) :
    isControlByte c = false := by
  have hc' : c ∈ (s.data.filter (fun c => !isControlByte c)).take 500 := hc
  have hmem := List.take_subset 500 _ hc'
  rw [List.mem_filter] at hmem
  simpa using hmem.2

theorem escapeHtml_no_markup (s : String) (c : Char)
    (hc : c ∈ (escapeHtml (some s)).data) :
    c ≠ '<' ∧ c ≠ '>' ∧ c ≠ dquote ∧ c ≠ apos := by
  refine ⟨?_, ?_, ?_, ?_⟩ <;> intro heq <;> subst heq
  · rcases mem_replaceChar hc with h | ⟨h, _⟩
    · exact absurd h (by decide)
    rcases mem_replaceChar h with h2 | ⟨h2, _⟩
    · exact absurd h2 (by decide)
    rcases mem_replaceChar h2 with h3 | ⟨h3, _⟩
    · exact absurd h3 (by decide)
    rcases mem_replaceChar h3 with h4 | ⟨_, hne⟩
    · exact absurd h4 (by decide)
    · exact hne rfl
  · rcases mem_replaceChar hc with h | ⟨h, _⟩
    · exact absurd h (by decide)
    rcases mem_replaceChar h with h2 | ⟨h2, _⟩
    · exact absurd h2 (by decide)
    rcases mem_replaceChar h2 with h3 | ⟨_, hne⟩
    · exact absurd h3 (by decide)
    · exact hne rfl
  · rcases mem_replaceChar hc with h | ⟨h, _⟩
    · exact absurd h (by decide)
    rcases mem_replaceChar h with h2 | ⟨_, hne⟩
    · exact absurd h2 (by decide)
    · exact hne rfl
  · rcases mem_replaceChar hc with h | ⟨_, hne⟩
    · exact absurd h (by decide)
    · exact hne rfl

/-- C4: every visitor-supplied free-text field embedded in an outbound
message is sanitized: the webhook sanitizer strips all control characters
and truncates each field to the 500-character cap, and is applied to every
free-text payload field; the email sanitizer leaves no raw angle bracket,
double quote or apostrophe in any escaped field, the purpose cell of the
HTML body comes from the escaped value, and the script-tag purpose renders
exactly as its entity-escaped text. -/
theorem sanitization_sound :
    (∀ s : String, (escapeText s).data.length ≤ 500) ∧
    (∀ (s : String) (c : Char), c ∈ (escapeText s).data → isControlByte c = false) ∧
    (∀ v : VisitorPayload,
      (sanitizeVisitor v).full_name = escapeText v.full_name ∧
      (sanitizeVisitor v).badge_id = escapeText v.badge_id ∧
      (sanitizeVisitor v).company_name = escapeText v.company_name ∧
      (sanitizeVisitor v).host_name = escapeText v.host_name ∧
      (sanitizeVisitor v).purpose = escapeText v.purpose ∧
      (sanitizeVisitor v).phone_number = escapeText v.phone_number) ∧
    (∀ (s : String) (c : Char), c ∈ (escapeHtml (some s)).data →
      c ≠ '<' ∧ c ≠ '>' ∧ c ≠ dquote ∧ c ≠ apos) ∧
    (∀ v : EmailVisitor, (safeEmailVisitor v).purpose = escapeHtml (some v.purpose)) ∧
    (safeEmailVisitor scriptEmailVisitor).purpose = "&lt;script&gt;alert(1)&lt;/script&gt;" := by
  refine ⟨escapeText_length, escapeText_no_control, ?_, escapeHtml_no_markup, ?_, ?_⟩
  · intro v
    exact ⟨rfl, rfl, rfl, rfl, rfl, rfl⟩
  · intro v
    rfl
  · decide

/-- C4 witness: a plain letter survives both sanitizers, satisfying the
membership hypotheses at a concrete input. -/
theorem sanitization_sound_witness :
    isControlByte (Char.ofNat 97) = false ∧ Char.ofNat 97 ≠ apos := by
  exact ⟨sanitization_sound.2.1 "ab" (Char.ofNat 97) (by decide),
    (sanitization_sound.2.2.2.1 "ab" (Char.ofNat 97) (by decide)).2.2.2⟩

/-- C3: both externally-triggered notification dispatch functions, the
webhook fan-out and the email sender, re-authorize the caller: a request
without a bearer token is answered 401, a valid token resolving to a
principal whose single role row is the plain user role is answered 403, and
a staff request naming a visitor id that resolves to no row is answered 404. -/
theorem notification_reauthorization :
    ∀ (req : NotifyRequest) (ereq : EmailRequest) (roles : List RoleRow)
      (vids : List String) (webhooks : List WebhookSetting)
      (deliver : WebhookSetting → Option String) (send : String → Option String),
      (req.authHeader = none →
        (sendVisitorNotification req roles vids webhooks deliver).status = 401 ∧
        (sendVisitorNotification req roles vids webhooks deliver).success = false) ∧
      (∀ hdr : String, req.authHeader = some hdr → bearerHeaderOk hdr = true →
        req.tokenValid = true →
        roles.filter (fun row => row.user_id == req.tokenUser) =
          [{ user_id := req.tokenUser, role := AppRole.user }] →
        (sendVisitorNotification req roles vids webhooks deliver).status = 403) ∧
      (∀ hdr : String, req.authHeader = some hdr → bearerHeaderOk hdr = true →
        req.tokenValid = true → staffRoleCheck roles req.tokenUser = true →
        req.visitor.id ≠ "" → vids.contains req.visitor.id = false →
        (sendVisitorNotification req roles vids webhooks deliver).status = 404) ∧
      (ereq.authHeader = none →
        (sendVisitorEmail ereq roles vids send).status = 401 ∧
        (sendVisitorEmail ereq roles vids send).success = false) ∧
      (∀ hdr : String, ereq.authHeader = some hdr → bearerHeaderOk hdr = true →
        ereq.tokenValid = true →
        roles.filter (fun row => row.user_id == ereq.tokenUser) =
          [{ user_id := ereq.tokenUser, role := AppRole.user }] →
        (sendVisitorEmail ereq roles vids send).status = 403) ∧
      (∀ (hdr vid : String), ereq.authHeader = some hdr → bearerHeaderOk hdr = true →
        ereq.tokenValid = true → staffRoleCheck roles ereq.tokenUser = true →
        ereq.visitor.id = some vid → vid ≠ "" → vids.contains vid = false →
        (sendVisitorEmail ereq roles vids send).status = 404) := by
  intro req ereq roles vids webhooks deliver send
  refine ⟨?_, ?_, ?_, ?_, ?_, ?_⟩
  · intro h
    constructor <;> simp [sendVisitorNotification, h]
  · intro hdr hh hsw hval hfilter
    have hsrc : staffRoleCheck roles req.tokenUser = false := by
      rw [staffRoleCheck, hfilter]
      rfl
    simp [sendVisitorNotification, hh, hsw, hval, hsrc]
  · intro hdr hh hsw hval hstaff hne hcont
    have hcont2 : ¬(req.visitor.id ∈ vids) := by simpa using hcont
    simp [sendVisitorNotification, hh, hsw, hval, hstaff, hcont2, bne_iff_ne, hne]
  · intro h
    constructor <;> simp [sendVisitorEmail, h]
  · intro hdr hh hsw hval hfilter
    have hsrc : staffRoleCheck roles ereq.tokenUser = false := by
      rw [staffRoleCheck, hfilter]
      rfl
    simp [sendVisitorEmail, hh, hsw, hval, hsrc]
  · intro hdr vid hh hsw hval hstaff hid hne hcont
    have hcont2 : ¬(vid ∈ vids) := by simpa using hcont
    simp [sendVisitorEmail, hh, hsw, hval, hstaff, hid, hcont2, bne_iff_ne, hne]

/-- C3 witness: the three rejection paths of each function fire on concrete
requests: no header gives 401, the user-role principal 1 gives 403, and
receptionist 2 naming an unknown visitor id gives 404. -/
theorem notification_reauthorization_witness :
    (sendVisitorNotification
      { authHeader := none, tokenValid := false, tokenUser := 9
        visitor := sampleVisitorPayload, eventType := EventType.checkin }
      [] [] [] (fun _ => none)).status = 401 ∧
    (sendVisitorNotification
      { authHeader := some "Bearer x", tokenValid := true, tokenUser := 1
        visitor := sampleVisitorPayload, eventType := EventType.checkin }
      demotedCreatorRoles [] [] (fun _ => none)).status = 403 ∧
    (sendVisitorNotification reqCheckin staffOnlyRoles [] [] (fun _ => none)).status = 404 ∧
    (sendVisitorEmail
      { authHeader := none, tokenValid := false, tokenUser := 9
        visitor := sampleEmailVisitor, eventType := EventType.checkin }
      [] [] (fun _ => none)).status = 401 ∧
    (sendVisitorEmail
      { authHeader := some "Bearer x", tokenValid := true, tokenUser := 1
        visitor := sampleEmailVisitor, eventType := EventType.checkin }
      demotedCreatorRoles [] (fun _ => none)).status = 403 ∧
    (sendVisitorEmail
      { authHeader := some "Bearer x", tokenValid := true, tokenUser := 2
        visitor := sampleEmailVisitor, eventType := EventType.checkin }
      staffOnlyRoles [] (fun _ => none)).status = 404 := by
  refine ⟨?_, ?_, ?_, ?_, ?_, ?_⟩
  · exact ((notification_reauthorization
      { authHeader := none, tokenValid := false, tokenUser := 9
        visitor := sampleVisitorPayload, eventType := EventType.checkin }
      { authHeader := none, tokenValid := false, tokenUser := 9
        visitor := sampleEmailVisitor, eventType := EventType.checkin }
      [] [] [] (fun _ => none) (fun _ => none)).1 rfl).1
  · exact (notification_reauthorization
      { authHeader := some "Bearer x", tokenValid := true, tokenUser := 1
        visitor := sampleVisitorPayload, eventType := EventType.checkin }
      { authHeader := none, tokenValid := false, tokenUser := 9
        visitor := sampleEmailVisitor, eventType := EventType.checkin }
      demotedCreatorRoles [] [] (fun _ => none) (fun _ => none)).2.1
      "Bearer x" rfl (by decide) rfl rfl
  · exact (notification_reauthorization reqCheckin
      { authHeader := none, tokenValid := false, tokenUser := 9
        visitor := sampleEmailVisitor, eventType := EventType.checkin }
      staffOnlyRoles [] [] (fun _ => none) (fun _ => none)).2.2.1
      "Bearer x" rfl (by decide) rfl rfl (by decide) rfl
  · exact ((notification_reauthorization
      { authHeader := none, tokenValid := false, tokenUser := 9
        visitor := sampleVisitorPayload, eventType := EventType.checkin }
      { authHeader := none, tokenValid := false, tokenUser := 9
        visitor := sampleEmailVisitor, eventType := EventType.checkin }
      [] [] [] (fun _ => none) (fun _ => none)).2.2.2.1 rfl).1
  · exact (notification_reauthorization
      { authHeader := none, tokenValid := false, tokenUser := 9
        visitor := sampleVisitorPayload, eventType := EventType.checkin }
      { authHeader := some "Bearer x", tokenValid := true, tokenUser := 1
        visitor := sampleEmailVisitor, eventType := EventType.checkin }
      demotedCreatorRoles [] [] (fun _ => none) (fun _ => none)).2.2.2.2.1
      "Bearer x" rfl (by decide) rfl rfl
  · exact (notification_reauthorization
      { authHeader := none, tokenValid := false, tokenUser := 9
        visitor := sampleVisitorPayload, eventType := EventType.checkin }
      { authHeader := some "Bearer x", tokenValid := true, tokenUser := 2
        visitor := sampleEmailVisitor, eventType := EventType.checkin }
      staffOnlyRoles [] [] (fun _ => none) (fun _ => none)).2.2.2.2.2
      "Bearer x" "v1" rfl (by decide) rfl rfl rfl (by decide) rfl

theorem dispatch_response_of_authorized :
    ∀ (req : NotifyRequest) (roles : List RoleRow) (vids : List String)
      (webhooks : List WebhookSetting) (deliver : WebhookSetting → Option String)
      (hdr : String),
      req.authHeader = some hdr → bearerHeaderOk hdr = true →
      req.tokenValid = true → staffRoleCheck roles req.tokenUser = true →
      vids.contains req.visitor.id = true →
      ((sendVisitorNotification req roles vids webhooks deliver).status = 200 ∧
        (sendVisitorNotification req roles vids webhooks deliver).success = true ∧
        (sendVisitorNotification req roles vids webhooks deliver).results =
          ((webhooks.filter (fun w => w.is_active)).filter
            (notifyMatches req.eventType)).map (mkDispatchResult deliver) ∧
        ((webhooks.filter (fun w => w.is_active)).filter (notifyMatches req.eventType) = [] →
          (sendVisitorNotification req roles vids webhooks deliver).results = []) ∧
        (sendVisitorNotification req roles vids webhooks deliver).results.length =
          ((webhooks.filter (fun w => w.is_active)).filter
            (notifyMatches req.eventType)).length ∧
        (sendVisitorNotification req roles vids webhooks deliver).results.countP
            (fun x => !x.success) =
          ((webhooks.filter (fun w => w.is_active)).filter
            (notifyMatches req.eventType)).countP (fun w => (deliver w).isSome)) := by
  intro req roles vids webhooks deliver hdr hh hsw hval hstaff hcont
  have hmem : req.visitor.id ∈ vids := by simpa using hcont
  have hresp : sendVisitorNotification req roles vids webhooks deliver =
      { status := 200, success := true, error := none
        results := ((webhooks.filter (fun w => w.is_active)).filter
          (notifyMatches req.eventType)).map (mkDispatchResult deliver) } := by
    simp [sendVisitorNotification, hh, hsw, hval, hstaff, hmem]
  rw [hresp]
  refine ⟨rfl, rfl, rfl, ?_, ?_, ?_⟩
  · intro hempty
    rw [hempty]
    rfl
  · simp
  · rw [List.countP_map]
    have hfun : ((fun x : DispatchResult => !x.success) ∘ (mkDispatchResult deliver)) =
        (fun w => (deliver w).isSome) := by
      funext w
      cases hdw : deliver w <;> simp [mkDispatchResult, hdw]
    rw [hfun]

/-- Concrete authenticated check-in request by admin 0. -/
def reqCheckinAdmin : NotifyRequest :=
  { authHeader := some "Bearer x", tokenValid := true, tokenUser := 0
    visitor := sampleVisitorPayload, eventType := EventType.checkin }

/-- Concrete authenticated check-out request by admin 0. -/
def reqCheckoutAdmin : NotifyRequest :=
  { authHeader := some "Bearer x", tokenValid := true, tokenUser := 0
    visitor := sampleVisitorPayload, eventType := EventType.checkout }

/-- C8 counterexample: receptionist 2 holds a valid staff bearer token and
invokes a check-in naming visitor v1, which exists in the table but was
created by principal 1; the RLS-scoped validation query sees no row, so the
function answers 404, not 200 as the claim states for every existing
visitor id. -/
theorem dispatch_visibility_cex :
    reqCheckin.authHeader = some "Bearer x" ∧
    reqCheckin.tokenValid = true ∧
    staffRoleCheck staffOnlyRoles reqCheckin.tokenUser = true ∧
    sampleVisitor ∈ ([sampleVisitor] : List VisitorRow) ∧
    sampleVisitor.id = reqCheckin.visitor.id ∧
    canSelectVisitor staffOnlyRoles reqCheckin.tokenUser sampleVisitor = false ∧
    (sendVisitorNotification reqCheckin staffOnlyRoles
      (visibleVisitorIds staffOnlyRoles reqCheckin.tokenUser [sampleVisitor])
      [webhookA, webhookB] deliverFailSecond).status = 404 := by
  refine ⟨rfl, rfl, rfl, by decide, rfl, rfl, by decide⟩

/-- C8 amended: a check-in dispatch with a valid staff bearer token answers
200 with the per-target summary when the payload's visitor id resolves to a
row visible to the caller under the visitor SELECT policies (the caller is
an admin, or created the row): zero active matching targets yield an empty
results list, N targets yield exactly N entries of which exactly the targets
whose delivery fails are marked failed, and each entry depends only on its
own target's outcome, so one failing delivery never blocks or rolls back the
others; when the nonempty id resolves to no row visible to the caller, even
an existing visitor produces a 404 instead. -/
theorem dispatch_summary_amended :
    ∀ (req : NotifyRequest) (roles : List RoleRow) (visitors : List VisitorRow)
      (webhooks : List WebhookSetting) (deliver : WebhookSetting → Option String)
      (hdr : String),
      req.authHeader = some hdr → bearerHeaderOk hdr = true →
      req.tokenValid = true → staffRoleCheck roles req.tokenUser = true →
      ((∀ v : VisitorRow, v ∈ visitors → v.id = req.visitor.id →
        canSelectVisitor roles req.tokenUser v = true →
        (sendVisitorNotification req roles (visibleVisitorIds roles req.tokenUser visitors)
            webhooks deliver).status = 200 ∧
        (sendVisitorNotification req roles (visibleVisitorIds roles req.tokenUser visitors)
            webhooks deliver).success = true ∧
        (sendVisitorNotification req roles (visibleVisitorIds roles req.tokenUser visitors)
            webhooks deliver).results =
          ((webhooks.filter (fun w => w.is_active)).filter
            (notifyMatches req.eventType)).map (mkDispatchResult deliver) ∧
        ((webhooks.filter (fun w => w.is_active)).filter (notifyMatches req.eventType) = [] →
          (sendVisitorNotification req roles (visibleVisitorIds roles req.tokenUser visitors)
            webhooks deliver).results = []) ∧
        (sendVisitorNotification req roles (visibleVisitorIds roles req.tokenUser visitors)
            webhooks deliver).results.length =
          ((webhooks.filter (fun w => w.is_active)).filter
            (notifyMatches req.eventType)).length ∧
        (sendVisitorNotification req roles (visibleVisitorIds roles req.tokenUser visitors)
            webhooks deliver).results.countP (fun x => !x.success) =
          ((webhooks.filter (fun w => w.is_active)).filter
            (notifyMatches req.eventType)).countP (fun w => (deliver w).isSome)) ∧
      (req.visitor.id ≠ "" →
        (∀ v : VisitorRow, v ∈ visitors → v.id = req.visitor.id →
          canSelectVisitor roles req.tokenUser v = false) →
        (sendVisitorNotification req roles (visibleVisitorIds roles req.tokenUser visitors)
            webhooks deliver).status = 404)) := by
  intro req roles visitors webhooks deliver hdr hh hsw hval hstaff
  constructor
  · intro v hv hid hvis
    have hmem : req.visitor.id ∈ visibleVisitorIds roles req.tokenUser visitors := by
      rw [visibleVisitorIds, List.mem_map]
      exact ⟨v, List.mem_filter.mpr ⟨hv, hvis⟩, hid⟩
    have hcont : (visibleVisitorIds roles req.tokenUser visitors).contains
        req.visitor.id = true := by
      simpa using hmem
    exact dispatch_response_of_authorized req roles
      (visibleVisitorIds roles req.tokenUser visitors) webhooks deliver hdr
      hh hsw hval hstaff hcont
  · intro hne hnovis
    have hcont2 : ¬(req.visitor.id ∈ visibleVisitorIds roles req.tokenUser visitors) := by
      rw [visibleVisitorIds, List.mem_map]
      rintro ⟨v, hvf, hvid⟩
      rw [List.mem_filter] at hvf
      have hfalse := hnovis v hvf.1 hvid
      rw [hfalse] at hvf
      exact absurd hvf.2 (by simp)
    simp [sendVisitorNotification, hh, hsw, hval, hstaff, hcont2, bne_iff_ne, hne]

/-- C8 amended witness: admin 0, who may read visitor v1, dispatches a
check-in to two active targets of which the Teams one fails, getting 200
with as many failures as failing targets; the admin's check-out event
matches no target and yields the empty results list; receptionist 2 gets 404
for the same existing visitor it cannot read. -/
theorem dispatch_summary_amended_witness :
    (sendVisitorNotification reqCheckinAdmin adminOnlyRoles
      (visibleVisitorIds adminOnlyRoles reqCheckinAdmin.tokenUser [sampleVisitor])
      [webhookA, webhookB] deliverFailSecond).status = 200 ∧
    (sendVisitorNotification reqCheckinAdmin adminOnlyRoles
      (visibleVisitorIds adminOnlyRoles reqCheckinAdmin.tokenUser [sampleVisitor])
      [webhookA, webhookB] deliverFailSecond).results.countP (fun x => !x.success) =
      (([webhookA, webhookB].filter (fun w => w.is_active)).filter
        (notifyMatches reqCheckinAdmin.eventType)).countP
        (fun w => (deliverFailSecond w).isSome) ∧
    (sendVisitorNotification reqCheckoutAdmin adminOnlyRoles
      (visibleVisitorIds adminOnlyRoles reqCheckoutAdmin.tokenUser [sampleVisitor])
      [webhookA, webhookB] deliverFailSecond).results = [] ∧
    (sendVisitorNotification reqCheckin staffOnlyRoles
      (visibleVisitorIds staffOnlyRoles reqCheckin.tokenUser [sampleVisitor])
      [webhookA, webhookB] deliverFailSecond).status = 404 := by
  refine ⟨?_, ?_, ?_, ?_⟩
  · exact ((dispatch_summary_amended reqCheckinAdmin adminOnlyRoles [sampleVisitor]
      [webhookA, webhookB] deliverFailSecond "Bearer x" rfl (by decide) rfl rfl).1
      sampleVisitor (by decide) rfl rfl).1
  · exact ((dispatch_summary_amended reqCheckinAdmin adminOnlyRoles [sampleVisitor]
      [webhookA, webhookB] deliverFailSecond "Bearer x" rfl (by decide) rfl rfl).1
      sampleVisitor (by decide) rfl rfl).2.2.2.2.2
  · exact ((dispatch_summary_amended reqCheckoutAdmin adminOnlyRoles [sampleVisitor]
      [webhookA, webhookB] deliverFailSecond "Bearer x" rfl (by decide) rfl rfl).1
      sampleVisitor (by decide) rfl rfl).2.2.2.1 (by decide)
  · exact (dispatch_summary_amended reqCheckin staffOnlyRoles [sampleVisitor]
      [webhookA, webhookB] deliverFailSecond "Bearer x" rfl (by decide) rfl rfl).2
      (by decide) (fun v hv hid => by
        rw [List.mem_singleton] at hv
        subst hv
        rfl)

end GuestConnect
